import Mathlib

/-!
Verification of the Mini Pokédex Lite MCP resource server
(`mcp-crash-course-project-resources/main.py`) and the agent client
(`mcp-crash-course-project-langchain-mcp-adapters/main.py`).

The three resource handlers are embedded as pure Lean functions from the
request input and the upstream HTTP outcome to a handler result.  Python
dynamic-typing behaviour that the handlers depend on (subscripting,
iteration, slicing, `len`, true division, `str.capitalize`) is embedded by
small primitives over a JSON value type, each returning `Except PyExc`
with the exception class CPython would raise.  The `try`/`except` layout of
the handlers is embedded by `runResource`, which rewraps exactly the
exception classes the source catches and lets every other class escape as
an unhandled crash.
-/

/-- Single-quote character, used in the upstream error message texts. -/
def squote : String := String.singleton (Char.ofNat 39)

/-- Embedding of Python `str.capitalize`: first character uppercased,
remaining characters lowercased. -/
def pyCapitalize (s : String) : String :=
  match s.data with
  | [] => ""
  | c :: cs => String.mk (c.toUpper :: cs.map Char.toLower)

/-- JSON values, as produced by `response.json()`. -/
inductive Json where
  | null : Json
  | jbool (b : Bool) : Json
  | jnum (q : Rat) : Json
  | jstr (s : String) : Json
  | jarr (elts : List Json) : Json
  | jobj (fields : List (String × Json)) : Json

/-- The Python exception classes that can arise in the two lookup handlers.
`resourceError` is `fastmcp.exceptions.ResourceError` (a subclass of
`FastMCPError`, not of `ValueError`, `KeyError` or `httpx.RequestError`);
`requestError` is `httpx.RequestError`; the rest are builtins.  Each
carries the `str(e)` rendering used when the handler wraps it. -/
inductive PyExc where
  | resourceError (msg : String)
  | requestError (msg : String)
  | keyError (msg : String)
  | valueError (msg : String)
  | typeError (msg : String)
  | attributeError (msg : String)
deriving DecidableEq

/-- The message of `json.JSONDecodeError` (a `ValueError` subclass) raised
by `response.json()` on a body that is not valid JSON; the text abbreviates
the CPython message for an empty/invalid document. -/
def jsonDecodeErrMsg : String := "Expecting value: line 1 column 1 (char 0)"

/-- The `str(e)` rendering of `KeyError(k)`: the key in single quotes. -/
def keyErrStr (k : String) : String := squote ++ k ++ squote

/-- Message text of the `TypeError` raised by `/` on a non-numeric operand
(abbreviates the CPython text). -/
def divTypeErrMsg : String := "unsupported operand type(s) for /"

/-- Message text of the `TypeError` raised by subscripting a value that is
not subscriptable or with a key of the wrong kind (abbreviates CPython). -/
def subscriptTypeErrMsg : String := "object is not subscriptable"

/-- Message text of the `AttributeError` raised by `.capitalize()` on a
non-string value (abbreviates the CPython text). -/
def capAttrErrMsg : String := "object has no attribute capitalize"

/-- Message text of the `TypeError` raised by iterating a non-iterable. -/
def iterTypeErrMsg : String := "object is not iterable"

/-- Message text of the `TypeError` raised by `len` on a value without a
length. -/
def lenTypeErrMsg : String := "object has no len"

/-- Message text of the `TypeError` raised when a dict key is unhashable. -/
def unhashableMsg : String := "unhashable type"

/-- Embedding of `response.json()`: the transport delivers either a body
that parses to a JSON value, or one that raises `JSONDecodeError`. -/
def pyJson (body : Option Json) : Except PyExc Json :=
  match body with
  | some j => .ok j
  | none => .error (.valueError jsonDecodeErrMsg)

/-- First-match association lookup over the fields of a parsed JSON
object (a Python dict has unique keys, so first match is the match). -/
def assocFind (k : String) : List (String × Json) → Option Json
  | [] => none
  | (k2, v) :: rest => if k = k2 then some v else assocFind k rest

/-- Embedding of `x[k]` for a string key `k`: dict lookup raising
`KeyError` on a missing key, `TypeError` on every non-dict value. -/
def pyGetItem (j : Json) (k : String) : Except PyExc Json :=
  match j with
  | .jobj fields =>
    match assocFind k fields with
    | some v => .ok v
    | none => .error (.keyError (keyErrStr k))
  | _ => .error (.typeError subscriptTypeErrMsg)

/-- Embedding of `x.capitalize()`: only strings have the attribute. -/
def pyCapAttr (j : Json) : Except PyExc String :=
  match j with
  | .jstr s => .ok (pyCapitalize s)
  | _ => .error (.attributeError capAttrErrMsg)

/-- Embedding of `x / 10` (Python true division): numbers divide, a bool
coerces to 0 or 1, everything else raises `TypeError`. -/
def pyDiv10 (j : Json) : Except PyExc Rat :=
  match j with
  | .jnum q => .ok (q / 10)
  | .jbool b => .ok ((if b then (1 : Rat) else 0) / 10)
  | _ => .error (.typeError divTypeErrMsg)

/-- Embedding of `for x in j`: lists iterate their elements, strings their
characters (as one-character strings), dicts their keys; other values
raise `TypeError`. -/
def pyIter (j : Json) : Except PyExc (List Json) :=
  match j with
  | .jarr l => .ok l
  | .jstr s => .ok (s.data.map (fun c => .jstr (String.singleton c)))
  | .jobj fields => .ok (fields.map (fun kv => .jstr kv.1))
  | _ => .error (.typeError iterTypeErrMsg)

/-- Embedding of `x[:10]`: lists and strings slice, everything else raises
`TypeError`. -/
def pySliceTo10 (j : Json) : Except PyExc Json :=
  match j with
  | .jarr l => .ok (.jarr (l.take 10))
  | .jstr s => .ok (.jstr (String.mk (s.data.take 10)))
  | _ => .error (.typeError subscriptTypeErrMsg)

/-- Embedding of `len(x)`. -/
def pyLen (j : Json) : Except PyExc Nat :=
  match j with
  | .jarr l => .ok l.length
  | .jstr s => .ok s.length
  | .jobj fields => .ok fields.length
  | _ => .error (.typeError lenTypeErrMsg)

/-- Embedding of `str(x)` as used by the f-string interpolation.  Strings
interpolate verbatim, which is the only case any upstream payload of
interest exercises; the renderings of the remaining cases abbreviate the
CPython `str` output. -/
def pyStr (j : Json) : String :=
  match j with
  | .jstr s => s
  | .jnum q => toString q
  | .jbool b => if b then "True" else "False"
  | .null => "None"
  | .jarr _ => "<list>"
  | .jobj _ => "<dict>"

/-- Numeric view used by Python equality between dict keys (bools compare
equal to 0 and 1). -/
def asPyNum : Json → Option Rat
  | .jnum q => some q
  | .jbool b => some (if b then 1 else 0)
  | _ => none

/-- Python `==` between hashable scalar values used as dict keys. -/
def pyKeyEq (a b : Json) : Bool :=
  match a, b with
  | .null, .null => true
  | .jstr s, .jstr t => s == t
  | x, y =>
    match asPyNum x, asPyNum y with
    | some p, some q => p == q
    | _, _ => false

/-- Hashability of a value used as a dict key (lists and dicts are not). -/
def pyHashable : Json → Bool
  | .jarr _ => false
  | .jobj _ => false
  | _ => true

/-- Insertion into a Python dict: an existing equal key keeps its position
and original key object and has its value replaced; a new key appends. -/
def dictInsert (d : List (Json × Json)) (k v : Json) : List (Json × Json) :=
  if d.any (fun kv => pyKeyEq kv.1 k) then
    d.map (fun kv => if pyKeyEq kv.1 k then (kv.1, v) else kv)
  else d ++ [(k, v)]

/-- Embedding of a Python list comprehension whose element expression may
raise: evaluate left to right, stopping at the first exception. -/
def mapExcept {α β : Type} (f : α → Except PyExc β) : List α → Except PyExc (List β)
  | [] => .ok []
  | a :: rest => do
    let b ← f a
    let bs ← mapExcept f rest
    .ok (b :: bs)

/-- Embedding of a Python dict comprehension: evaluate each key/value pair
left to right, inserting into the dict built so far; an unhashable key
raises `TypeError`. -/
def buildDict (f : Json → Except PyExc (Json × Json)) :
    List (Json × Json) → List Json → Except PyExc (List (Json × Json))
  | acc, [] => .ok acc
  | acc, st :: rest => do
    let kv ← f st
    if pyHashable kv.1 then buildDict f (dictInsert acc kv.1 kv.2) rest
    else .error (.typeError unhashableMsg)

/-- Upstream HTTP response: status code and a body that either parses as
JSON or does not. -/
structure HttpResponse where
  status : Nat
  body : Option Json

/-- Outcome of the `client.get` call: either a response or a transport
failure (`httpx.RequestError`, which includes the 10-second timeout). -/
inductive Upstream where
  | transportFail (cause : String)
  | resp (r : HttpResponse)

/-- The dict returned by `get_pokemon` on success, field for field. -/
structure PokemonRecord where
  id : Json
  name : String
  height : Rat
  weight : Rat
  types : List Json
  abilities : List Json
  base_stats : List (Json × Json)
  sprite : Json
  api_url : String

/-- One entry of the `pokemon` list returned by `get_pokemon_by_type`. -/
structure TypeEntry where
  name : String
  uri : String
deriving DecidableEq

/-- The dict returned by `get_pokemon_by_type` on success. -/
structure TypePokemonSummary where
  type : String
  type_id : Json
  pokemon_count : Nat
  showing : Nat
  pokemon : List TypeEntry

/-- Observable outcome of one handler invocation: a returned value, a
raised `ResourceError` (the catchable signal the framework reports to the
caller), or an unhandled exception escaping the handler. -/
inductive HandlerResult (α : Type) where
  | ok (a : α)
  | resourceError (msg : String)
  | crash (e : PyExc)

/-- True exactly on the `resourceError` outcome. -/
def HandlerResult.isResourceError {α : Type} : HandlerResult α → Bool
  | .resourceError _ => true
  | _ => false

/-- True exactly on the `crash` outcome. -/
def HandlerResult.isCrash {α : Type} : HandlerResult α → Bool
  | .crash _ => true
  | _ => false

/-- The exception classes that the handlers do not catch. -/
def uncaughtKind : PyExc → Bool
  | .typeError _ => true
  | .attributeError _ => true
  | _ => false

/-- Embedding of the `try`/`except` layout shared by both lookup handlers:
`except httpx.RequestError` rewraps with the fetch-failure text,
`except (KeyError, ValueError)` rewraps with the processing-failure text,
a raised `ResourceError` matches no `except` clause and propagates
unchanged, and any other class escapes the handler unhandled. -/
def runResource {α : Type} (wrapFetch wrapProc : String → String)
    (body : Except PyExc α) : HandlerResult α :=
  match body with
  | .ok a => .ok a
  | .error (.resourceError m) => .resourceError m
  | .error (.requestError m) => .resourceError (wrapFetch m)
  | .error (.keyError m) => .resourceError (wrapProc m)
  | .error (.valueError m) => .resourceError (wrapProc m)
  | .error e => .crash e

/-- Embedding of `await client.get(...)` inside the `try` block. -/
def fetchStep (u : Upstream) : Except PyExc HttpResponse :=
  match u with
  | .transportFail cause => .error (.requestError cause)
  | .resp r => .ok r

/-- Message texts of the resource errors raised by the handlers, exactly
as the f-strings in the source build them. -/
def pokemonNotFoundMsg (idOrName : String) : String :=
  "Pokémon with ID/name " ++ squote ++ idOrName ++ squote ++ " not found"

/-- Message of the 404 resource error of the type handler. -/
def typeNotFoundMsg (typeName : String) : String :=
  "Type " ++ squote ++ typeName ++ squote ++ " not found"

/-- Message of the non-200 resource error (both handlers). -/
def pokeApiErrMsg (status : Nat) : String :=
  "PokeAPI error: HTTP " ++ toString status

/-- Wrapper text of `except httpx.RequestError` in `get_pokemon`. -/
def fetchPokemonMsg (cause : String) : String :=
  "Failed to fetch Pokémon data: " ++ cause

/-- Wrapper text of `except (KeyError, ValueError)` in `get_pokemon`. -/
def procPokemonMsg (cause : String) : String :=
  "Error processing Pokémon data: " ++ cause

/-- Wrapper text of `except httpx.RequestError` in `get_pokemon_by_type`. -/
def fetchTypeMsg (cause : String) : String :=
  "Failed to fetch type data: " ++ cause

/-- Wrapper text of `except (KeyError, ValueError)` in
`get_pokemon_by_type`. -/
def procTypeMsg (cause : String) : String :=
  "Error processing type data: " ++ cause

/-- The f-string URL recorded in the `api_url` field. -/
def pokemonApiUrl (idOrName : String) : String :=
  "https://pokeapi.co/api/v2/pokemon/" ++ idOrName

/-- Element expression of the `types` list comprehension:
`t["type"]["name"]`. -/
def pokemonTypeName (t : Json) : Except PyExc Json := do
  let ty ← pyGetItem t "type"
  pyGetItem ty "name"

/-- Element expression of the `abilities` list comprehension:
`a["ability"]["name"]`. -/
def pokemonAbilityName (a : Json) : Except PyExc Json := do
  let ab ← pyGetItem a "ability"
  pyGetItem ab "name"

/-- Key/value expression of the `base_stats` dict comprehension:
`stat["stat"]["name"] : stat["base_stat"]`. -/
def pokemonStatPair (st : Json) : Except PyExc (Json × Json) := do
  let stn ← pyGetItem st "stat"
  let k ← pyGetItem stn "name"
  let v ← pyGetItem st "base_stat"
  .ok (k, v)

/-- Body of the `try` block of `get_pokemon` after the fetch: status
checks, `response.json()`, and the result dict with its values evaluated
in source order. -/
def getPokemonBody (idOrName : String) (r : HttpResponse) :
    Except PyExc PokemonRecord :=
  if r.status = 404 then .error (.resourceError (pokemonNotFoundMsg idOrName))
  else if r.status ≠ 200 then .error (.resourceError (pokeApiErrMsg r.status))
  else do
    let data ← pyJson r.body
    let idv ← pyGetItem data "id"
    let nmv ← pyGetItem data "name"
    let nm ← pyCapAttr nmv
    let hv ← pyGetItem data "height"
    let h ← pyDiv10 hv
    let wv ← pyGetItem data "weight"
    let w ← pyDiv10 wv
    let tv ← pyGetItem data "types"
    let telems ← pyIter tv
    let types ← mapExcept pokemonTypeName telems
    let av ← pyGetItem data "abilities"
    let aelems ← pyIter av
    let abilities ← mapExcept pokemonAbilityName aelems
    let sv ← pyGetItem data "stats"
    let selems ← pyIter sv
    let base_stats ← buildDict pokemonStatPair [] selems
    let spr ← pyGetItem data "sprites"
    let sprite ← pyGetItem spr "front_default"
    .ok { id := idv, name := nm, height := h, weight := w, types := types,
          abilities := abilities, base_stats := base_stats, sprite := sprite,
          api_url := pokemonApiUrl idOrName }

/-- The `get_pokemon` handler: fetch inside the `try`, then the body, with
the two `except` clauses of the source applied to whatever escapes. -/
def get_pokemon (idOrName : String) (u : Upstream) :
    HandlerResult PokemonRecord :=
  runResource fetchPokemonMsg procPokemonMsg (do
    let r ← fetchStep u
    getPokemonBody idOrName r)

/-- Element expression of the `pokemon` list comprehension of the type
handler: name from `p["pokemon"]["name"].capitalize()`, then the URI
f-string which subscripts `p["pokemon"]["name"]` a second time. -/
def typeEntryOf (p : Json) : Except PyExc TypeEntry := do
  let pk ← pyGetItem p "pokemon"
  let nmv ← pyGetItem pk "name"
  let nm ← pyCapAttr nmv
  let pk2 ← pyGetItem p "pokemon"
  let nmv2 ← pyGetItem pk2 "name"
  .ok { name := nm, uri := "poke://pokemon/" ++ pyStr nmv2 }

/-- Body of the `try` block of `get_pokemon_by_type` after the fetch. -/
def getTypeBody (typeName : String) (r : HttpResponse) :
    Except PyExc TypePokemonSummary :=
  if r.status = 404 then .error (.resourceError (typeNotFoundMsg typeName))
  else if r.status ≠ 200 then .error (.resourceError (pokeApiErrMsg r.status))
  else do
    let data ← pyJson r.body
    let pall ← pyGetItem data "pokemon"
    let plist ← pySliceTo10 pall
    let tid ← pyGetItem data "id"
    let pall2 ← pyGetItem data "pokemon"
    let count ← pyLen pall2
    let showing ← pyLen plist
    let pelems ← pyIter plist
    let entries ← mapExcept typeEntryOf pelems
    .ok { type := pyCapitalize typeName, type_id := tid,
          pokemon_count := count, showing := showing, pokemon := entries }

/-- The `get_pokemon_by_type` handler. -/
def get_pokemon_by_type (typeName : String) (u : Upstream) :
    HandlerResult TypePokemonSummary :=
  runResource fetchTypeMsg procTypeMsg (do
    let r ← fetchStep u
    getTypeBody typeName r)

/-- The module-level starter table, in insertion order. -/
def STARTERS : List (String × String) :=
  [("1", "bulbasaur"), ("4", "charmander"), ("7", "squirtle")]

/-- One entry of the starter listing. -/
structure StarterEntry where
  id : String
  name : String
  uri : String
deriving DecidableEq

/-- The dict returned by `list_starters`. -/
structure StartersResult where
  starters : List StarterEntry
  total : Nat
deriving DecidableEq

/-- The `list_starters` handler: pure data from the starter table, no
input, no upstream call, no failure path. -/
def list_starters : StartersResult :=
  { starters := STARTERS.map
      (fun p => { id := p.1, name := pyCapitalize p.2,
                  uri := "poke://pokemon/" ++ p.1 }),
    total := STARTERS.length }

/-- Observable steps of the agent client after its module-level setup. -/
inductive ClientEvent where
  | subprocessLaunched
  | sessionInitialized
  | toolsListed
  | agentInvoked
  | answerPrinted
deriving DecidableEq

/-- Outcome of one run of the agent client process. -/
structure ClientRun where
  events : List ClientEvent
  fatalError : Option PyExc
deriving DecidableEq

/-- Message of the `TypeError` raised by `os.environ[k] = None`. -/
def envNoneMsg : String := "str expected, not NoneType"

/-- Embedding of the client module-level setup and `main()`:
`os.environ["GROQ_API_KEY"] = os.getenv("GROQ_API_KEY")` raises
`TypeError` when the variable is absent after `load_dotenv`, before the
`StdioServerParameters` value, the subprocess launch or any session step;
with the variable present the run proceeds through the linear sequence of
library calls (whose own failure modes are outside this repository). -/
def clientBootstrap (groqApiKey : Option String) : ClientRun :=
  match groqApiKey with
  | none => { events := [], fatalError := some (.typeError envNoneMsg) }
  | some _ =>
    { events := [.subprocessLaunched, .sessionInitialized, .toolsListed,
                 .agentInvoked, .answerPrinted],
      fatalError := none }

/-! ## Well-formed upstream payload generators

Concrete shapes of well-formed PokeAPI responses, used to state the
success-path claims over arbitrary field contents. -/

/-- One entry of the upstream `types` array. -/
def typeFieldJson (t : String) : Json :=
  .jobj [("type", .jobj [("name", .jstr t)])]

/-- One entry of the upstream `abilities` array. -/
def abilityFieldJson (a : String) : Json :=
  .jobj [("ability", .jobj [("name", .jstr a)])]

/-- One entry of the upstream `stats` array. -/
def statFieldJson (kv : String × Json) : Json :=
  .jobj [("stat", .jobj [("name", .jstr kv.1)]), ("base_stat", kv.2)]

/-- One entry of the upstream `pokemon` member array of a type payload. -/
def memberFieldJson (n : String) : Json :=
  .jobj [("pokemon", .jobj [("name", .jstr n)])]

/-- Field contents of a well-formed upstream Pokémon payload. -/
structure RawPokemon where
  pid : Json
  name : String
  height : Rat
  weight : Rat
  types : List String
  abilities : List String
  stats : List (String × Json)
  sprite : Json

/-- The JSON document of a well-formed upstream Pokémon payload. -/
def rawToJson (p : RawPokemon) : Json :=
  .jobj [("id", p.pid), ("name", .jstr p.name), ("height", .jnum p.height),
         ("weight", .jnum p.weight),
         ("types", .jarr (p.types.map typeFieldJson)),
         ("abilities", .jarr (p.abilities.map abilityFieldJson)),
         ("stats", .jarr (p.stats.map statFieldJson)),
         ("sprites", .jobj [("front_default", p.sprite)])]

/-- The same payload with the `height` key absent. -/
def rawJsonNoHeight (p : RawPokemon) : Json :=
  .jobj [("id", p.pid), ("name", .jstr p.name),
         ("weight", .jnum p.weight),
         ("types", .jarr (p.types.map typeFieldJson)),
         ("abilities", .jarr (p.abilities.map abilityFieldJson)),
         ("stats", .jarr (p.stats.map statFieldJson)),
         ("sprites", .jobj [("front_default", p.sprite)])]

/-- The same payload with the `weight` key absent. -/
def rawJsonNoWeight (p : RawPokemon) : Json :=
  .jobj [("id", p.pid), ("name", .jstr p.name), ("height", .jnum p.height),
         ("types", .jarr (p.types.map typeFieldJson)),
         ("abilities", .jarr (p.abilities.map abilityFieldJson)),
         ("stats", .jarr (p.stats.map statFieldJson)),
         ("sprites", .jobj [("front_default", p.sprite)])]

/-- The JSON document of a well-formed upstream type payload. -/
def rawTypeJson (tid : Json) (members : List String) : Json :=
  .jobj [("id", tid),
         ("pokemon", .jarr (members.map memberFieldJson))]

/-- A type payload with the `pokemon` member key absent. -/
def rawTypeJsonNoPokemon (tid : Json) : Json :=
  .jobj [("id", tid)]

/-- The Python dict built by the `base_stats` comprehension from
well-formed stat entries. -/
def pyStatsDict (stats : List (String × Json)) : List (Json × Json) :=
  stats.foldl (fun d kv => dictInsert d (.jstr kv.1) kv.2) []

/-- The record `get_pokemon` returns on a well-formed payload. -/
def expectedRecord (idOrName : String) (p : RawPokemon) : PokemonRecord :=
  { id := p.pid, name := pyCapitalize p.name, height := p.height / 10,
    weight := p.weight / 10, types := p.types.map Json.jstr,
    abilities := p.abilities.map Json.jstr,
    base_stats := pyStatsDict p.stats, sprite := p.sprite,
    api_url := pokemonApiUrl idOrName }

/-- The entry the type handler builds from one upstream member name. -/
def expectedTypeEntry (n : String) : TypeEntry :=
  { name := pyCapitalize n, uri := "poke://pokemon/" ++ n }

/-- The summary `get_pokemon_by_type` returns on a well-formed payload. -/
def expectedSummary (typeName : String) (tid : Json) (members : List String) :
    TypePokemonSummary :=
  { type := pyCapitalize typeName, type_id := tid,
    pokemon_count := members.length, showing := min 10 members.length,
    pokemon := (members.take 10).map expectedTypeEntry }

/-! ## Evaluation lemmas -/

/-- Inversion for a successful `Except` bind. -/
theorem bind_ok_elim {α β : Type} {e : Except PyExc α}
    {k : α → Except PyExc β} {b : β} (h : (e >>= k) = .ok b) :
    ∃ a, e = .ok a ∧ k a = .ok b := by
  cases e with
  | error er => simp [Bind.bind, Except.bind] at h
  | ok a => exact ⟨a, rfl, by simpa [Bind.bind, Except.bind] using h⟩

/-- The `types` comprehension over well-formed entries yields the raw
name values in order. -/
theorem mapExcept_typeFields (l : List String) :
    mapExcept pokemonTypeName (l.map typeFieldJson) = .ok (l.map Json.jstr) := by
  induction l with
  | nil => rfl
  | cons t rest ih =>
    simp [mapExcept, pokemonTypeName, typeFieldJson, pyGetItem, assocFind,
          bind, Except.bind, ih]

/-- The `abilities` comprehension over well-formed entries yields the raw
name values in order. -/
theorem mapExcept_abilityFields (l : List String) :
    mapExcept pokemonAbilityName (l.map abilityFieldJson) =
      .ok (l.map Json.jstr) := by
  induction l with
  | nil => rfl
  | cons a rest ih =>
    simp [mapExcept, pokemonAbilityName, abilityFieldJson, pyGetItem,
          assocFind, bind, Except.bind, ih]

/-- The `base_stats` dict comprehension over well-formed entries builds
the dict of name/value pairs. -/
theorem buildDict_statFields (l : List (String × Json))
    (acc : List (Json × Json)) :
    buildDict pokemonStatPair acc (l.map statFieldJson) =
      .ok (l.foldl (fun d kv => dictInsert d (.jstr kv.1) kv.2) acc) := by
  induction l generalizing acc with
  | nil => rfl
  | cons kv rest ih =>
    simp only [List.map_cons, List.foldl_cons, buildDict, pokemonStatPair,
               statFieldJson, pyGetItem, assocFind, bind, Except.bind]
    simp only [if_pos rfl, reduceIte, pyHashable]
    exact ih _

/-- The `pokemon` comprehension of the type handler over well-formed
member entries yields the capitalized-name/URI entries in order. -/
theorem mapExcept_memberFields (l : List String) :
    mapExcept typeEntryOf (l.map memberFieldJson) =
      .ok (l.map expectedTypeEntry) := by
  induction l with
  | nil => rfl
  | cons n rest ih =>
    simp [mapExcept, typeEntryOf, memberFieldJson, pyGetItem, assocFind,
          pyCapAttr, pyStr, expectedTypeEntry, bind, Except.bind, ih]

/-- Evaluation of `get_pokemon` on HTTP 200 and a well-formed payload. -/
theorem getPokemon_rawRun (idOrName : String) (p : RawPokemon) :
    get_pokemon idOrName (.resp ⟨200, some (rawToJson p)⟩) =
      .ok (expectedRecord idOrName p) := by
  unfold get_pokemon runResource fetchStep getPokemonBody
  simp only [bind, Except.bind]
  norm_num
  simp only [rawToJson, pyJson, pyGetItem, assocFind, pyCapAttr, pyDiv10,
             pyIter, bind, Except.bind, reduceIte, String.reduceEq,
             mapExcept_typeFields, mapExcept_abilityFields,
             buildDict_statFields, expectedRecord, pyStatsDict]

/-- Evaluation of `get_pokemon_by_type` on HTTP 200 and a well-formed
payload. -/
theorem getType_rawRun (typeName : String) (tid : Json)
    (members : List String) :
    get_pokemon_by_type typeName (.resp ⟨200, some (rawTypeJson tid members)⟩) =
      .ok (expectedSummary typeName tid members) := by
  unfold get_pokemon_by_type runResource fetchStep getTypeBody
  simp only [bind, Except.bind]
  norm_num
  simp only [rawTypeJson, pyJson, pyGetItem, assocFind, pySliceTo10, pyLen,
             pyIter, bind, Except.bind, reduceIte, String.reduceEq,
             expectedSummary]
  have hm : mapExcept typeEntryOf (List.take 10 (List.map memberFieldJson members)) =
      .ok (List.take 10 (List.map expectedTypeEntry members)) := by
    rw [← List.map_take, ← List.map_take]
    exact mapExcept_memberFields _
  simp [hm, List.length_take, min_comm]

/-- A handler built from `runResource` crashes only with an exception
class that no `except` clause of the source matches. -/
theorem runResource_crash {α : Type} (wrapFetch wrapProc : String → String)
    (body : Except PyExc α) (e : PyExc)
    (h : runResource wrapFetch wrapProc body = .crash e) :
    uncaughtKind e = true := by
  unfold runResource at h
  cases body with
  | ok a => simp at h
  | error e2 =>
    cases e2 with
    | resourceError m => simp at h
    | requestError m => simp at h
    | keyError m => simp at h
    | valueError m => simp at h
    | typeError m => injection h with h2; subst h2; rfl
    | attributeError m => injection h with h2; subst h2; rfl

/-- Every record that `getPokemonBody` returns carries the f-string URL
built from the requested identifier: the only `return` of the handler
sets `api_url` that way. -/
theorem getPokemonBody_ok_apiUrl (idOrName : String) (r : HttpResponse)
    (rec : PokemonRecord) (h : getPokemonBody idOrName r = .ok rec) :
    rec.api_url = pokemonApiUrl idOrName := by
  unfold getPokemonBody at h
  split at h
  · simp at h
  · split at h
    · simp at h
    · obtain ⟨data, _, h⟩ := bind_ok_elim h
      obtain ⟨idv, _, h⟩ := bind_ok_elim h
      obtain ⟨nmv, _, h⟩ := bind_ok_elim h
      obtain ⟨nm, _, h⟩ := bind_ok_elim h
      obtain ⟨hv, _, h⟩ := bind_ok_elim h
      obtain ⟨hgt, _, h⟩ := bind_ok_elim h
      obtain ⟨wv, _, h⟩ := bind_ok_elim h
      obtain ⟨wgt, _, h⟩ := bind_ok_elim h
      obtain ⟨tv, _, h⟩ := bind_ok_elim h
      obtain ⟨telems, _, h⟩ := bind_ok_elim h
      obtain ⟨types, _, h⟩ := bind_ok_elim h
      obtain ⟨av, _, h⟩ := bind_ok_elim h
      obtain ⟨aelems, _, h⟩ := bind_ok_elim h
      obtain ⟨abilities, _, h⟩ := bind_ok_elim h
      obtain ⟨sv, _, h⟩ := bind_ok_elim h
      obtain ⟨selems, _, h⟩ := bind_ok_elim h
      obtain ⟨base_stats, _, h⟩ := bind_ok_elim h
      obtain ⟨spr, _, h⟩ := bind_ok_elim h
      obtain ⟨sprite, _, h⟩ := bind_ok_elim h
      injection h with h2
      subst h2
      rfl

/-- Lift of `getPokemonBody_ok_apiUrl` to the full handler: a successful
invocation implies the body ran and returned the record. -/
theorem getPokemon_ok_apiUrl (idOrName : String) (u : Upstream)
    (rec : PokemonRecord) (h : get_pokemon idOrName u = .ok rec) :
    rec.api_url = pokemonApiUrl idOrName := by
  cases u with
  | transportFail c =>
    simp [get_pokemon, runResource, fetchStep, bind, Except.bind] at h
  | resp r =>
    unfold get_pokemon runResource fetchStep at h
    simp only [bind, Except.bind] at h
    cases hb : getPokemonBody idOrName r with
    | error e => rw [hb] at h; cases e <;> simp at h
    | ok rec2 =>
      rw [hb] at h
      simp only [] at h
      injection h with h2
      subst h2
      exact getPokemonBody_ok_apiUrl idOrName r _ hb

/-- A 200 payload lacking the `height` key: `data["height"]` raises
`KeyError`, which the second `except` clause wraps into the processing
resource error. -/
theorem getPokemon_missingHeight (idOrName : String) (p : RawPokemon) :
    get_pokemon idOrName (.resp ⟨200, some (rawJsonNoHeight p)⟩) =
      .resourceError (procPokemonMsg (keyErrStr "height")) := by
  unfold get_pokemon runResource fetchStep getPokemonBody
  simp [rawJsonNoHeight, pyJson, pyGetItem, assocFind, pyCapAttr,
        bind, Except.bind]

/-- A 200 payload lacking the `weight` key yields the processing resource
error wrapping the `KeyError`. -/
theorem getPokemon_missingWeight (idOrName : String) (p : RawPokemon) :
    get_pokemon idOrName (.resp ⟨200, some (rawJsonNoWeight p)⟩) =
      .resourceError (procPokemonMsg (keyErrStr "weight")) := by
  unfold get_pokemon runResource fetchStep getPokemonBody
  simp [rawJsonNoWeight, pyJson, pyGetItem, assocFind, pyCapAttr, pyDiv10,
        bind, Except.bind]

/-- A 200 type payload lacking the `pokemon` key: `data["pokemon"]` is the
first subscript the type handler evaluates, and its `KeyError` is wrapped
into the processing resource error. -/
theorem getType_missingMembers (typeName : String) (tid : Json) :
    get_pokemon_by_type typeName (.resp ⟨200, some (rawTypeJsonNoPokemon tid)⟩) =
      .resourceError (procTypeMsg (keyErrStr "pokemon")) := by
  unfold get_pokemon_by_type runResource fetchStep getTypeBody
  simp [rawTypeJsonNoPokemon, pyJson, pyGetItem, assocFind,
        bind, Except.bind]

/-! ## Concrete inputs used by counterexamples and witnesses -/

/-- HTTP 200 payload whose `height` value is a string: every key the
handler reads is present, but `data["height"] / 10` raises `TypeError`. -/
def badHeightJson : Json :=
  .jobj [("id", .jnum 1), ("name", .jstr "bulbasaur"), ("height", .jstr "tall")]

/-- Well-formed payload for Bulbasaur (upstream height 7 dm, weight 69 hg). -/
def bulbaRaw : RawPokemon :=
  { pid := .jnum 1, name := "bulbasaur", height := 7, weight := 69,
    types := ["grass", "poison"], abilities := ["overgrow"],
    stats := [("hp", .jnum 45)], sprite := .null }

/-- Well-formed payload whose `types` array repeats the same name. -/
def dupRaw : RawPokemon :=
  { pid := .jnum 1, name := "bulbasaur", height := 7, weight := 69,
    types := ["grass", "grass"], abilities := [], stats := [],
    sprite := .null }

/-- Well-formed payload with a negative upstream `height` value. -/
def negRaw : RawPokemon :=
  { pid := .jnum 1, name := "bulbasaur", height := -5, weight := 69,
    types := [], abilities := [], stats := [], sprite := .null }

/-- Twelve upstream member names for a type lookup. -/
def fireMembers : List String :=
  ["charmander", "charmeleon", "charizard", "vulpix", "ninetales",
   "growlithe", "arcanine", "ponyta", "rapidash", "magmar",
   "flareon", "moltres"]

/-- A body value irrelevant to the status-code error paths. -/
def junkJson : Json := .jstr "garbage"

/-! ## Claims -/

/-- C1 counterexample: an HTTP-200 payload in which every key the handler
reads is present but `height` holds a string makes `get_pokemon` raise an
uncaught `TypeError` — an unhandled crash, not the single catchable
resource-unavailable signal the claim promises for malformed payloads. -/
theorem wrong_typed_payload_crashes_counterexample :
    get_pokemon "1" (.resp ⟨200, some badHeightJson⟩) =
      .crash (.typeError divTypeErrMsg) ∧
    (get_pokemon "1" (.resp ⟨200, some badHeightJson⟩)).isResourceError
      = false :=
  ⟨rfl, rfl⟩

/-- C1 (amended): both lookups signal a catchable resource error exactly
for a transport failure (fetch-failed, wrapping the cause), upstream 404
(not-found, naming the identifier), any other non-200 status (naming the
status code), and a JSON-parse or missing-key failure (processing-error,
wrapping the cause); but a payload whose present values have unexpected
types escapes the handler as an uncaught `TypeError`/`AttributeError`
rather than a processing error, and those are the only unhandled-crash
classes. -/
theorem error_taxonomy (idOrName typeName cause : String) (r : HttpResponse)
    (p : RawPokemon) (tid : Json) :
    (get_pokemon idOrName (.transportFail cause) =
      .resourceError (fetchPokemonMsg cause)) ∧
    (get_pokemon_by_type typeName (.transportFail cause) =
      .resourceError (fetchTypeMsg cause)) ∧
    (r.status = 404 →
      get_pokemon idOrName (.resp r) =
        .resourceError (pokemonNotFoundMsg idOrName) ∧
      get_pokemon_by_type typeName (.resp r) =
        .resourceError (typeNotFoundMsg typeName)) ∧
    (r.status ≠ 404 → r.status ≠ 200 →
      get_pokemon idOrName (.resp r) =
        .resourceError (pokeApiErrMsg r.status) ∧
      get_pokemon_by_type typeName (.resp r) =
        .resourceError (pokeApiErrMsg r.status)) ∧
    (r.status = 200 → r.body = none →
      get_pokemon idOrName (.resp r) =
        .resourceError (procPokemonMsg jsonDecodeErrMsg) ∧
      get_pokemon_by_type typeName (.resp r) =
        .resourceError (procTypeMsg jsonDecodeErrMsg)) ∧
    (get_pokemon idOrName (.resp ⟨200, some (rawJsonNoHeight p)⟩) =
      .resourceError (procPokemonMsg (keyErrStr "height"))) ∧
    (get_pokemon_by_type typeName
        (.resp ⟨200, some (rawTypeJsonNoPokemon tid)⟩) =
      .resourceError (procTypeMsg (keyErrStr "pokemon"))) ∧
    (∀ e, get_pokemon idOrName (.resp r) = .crash e →
      uncaughtKind e = true) ∧
    (∀ e, get_pokemon_by_type typeName (.resp r) = .crash e →
      uncaughtKind e = true) := by
  refine ⟨rfl, rfl, ?_, ?_, ?_,
    getPokemon_missingHeight idOrName p, getType_missingMembers typeName tid,
    ?_, ?_⟩
  · intro h404
    constructor <;>
      simp [get_pokemon, get_pokemon_by_type, runResource, fetchStep,
            getPokemonBody, getTypeBody, bind, Except.bind, h404]
  · intro hs1 hs2
    constructor <;>
      simp [get_pokemon, get_pokemon_by_type, runResource, fetchStep,
            getPokemonBody, getTypeBody, bind, Except.bind, hs1, hs2]
  · intro h200 hbody
    constructor <;>
      simp [get_pokemon, get_pokemon_by_type, runResource, fetchStep,
            getPokemonBody, getTypeBody, pyJson, bind, Except.bind,
            h200, hbody]
  · intro e he
    exact runResource_crash _ _ _ e he
  · intro e he
    exact runResource_crash _ _ _ e he

/-- C1 witness: the taxonomy at concrete inputs — a transport failure on
both lookups, a 404 naming the identifier, a malformed JSON body, and
missing-key payloads for both handlers. -/
theorem error_taxonomy_witness :
    get_pokemon "1" (.transportFail "connection refused") =
      .resourceError (fetchPokemonMsg "connection refused") ∧
    get_pokemon_by_type "fire" (.transportFail "connection refused") =
      .resourceError (fetchTypeMsg "connection refused") ∧
    get_pokemon "999" (.resp ⟨404, none⟩) =
      .resourceError (pokemonNotFoundMsg "999") ∧
    get_pokemon "1" (.resp ⟨200, none⟩) =
      .resourceError (procPokemonMsg jsonDecodeErrMsg) ∧
    get_pokemon "1" (.resp ⟨200, some (rawJsonNoHeight bulbaRaw)⟩) =
      .resourceError (procPokemonMsg (keyErrStr "height")) ∧
    get_pokemon_by_type "fire"
        (.resp ⟨200, some (rawTypeJsonNoPokemon (.jnum 10))⟩) =
      .resourceError (procTypeMsg (keyErrStr "pokemon")) := by
  have h1 := error_taxonomy "1" "fire" "connection refused" ⟨200, none⟩
    bulbaRaw (.jnum 10)
  have h2 := error_taxonomy "999" "fire" "connection refused" ⟨404, none⟩
    bulbaRaw (.jnum 10)
  exact ⟨h1.1, h1.2.1, (h2.2.2.1 rfl).1, (h1.2.2.2.2.1 rfl rfl).1,
    h1.2.2.2.2.2.1, h1.2.2.2.2.2.2.1⟩

/-- C2: a successful type lookup on a well-formed payload with n member
entries reports the full count n, shows min(10, n), and lists exactly the
first min(10, n) members in upstream order. -/
theorem get_pokemon_by_type_success_counts (typeName : String) (tid : Json)
    (members : List String) (s : TypePokemonSummary)
    (h : get_pokemon_by_type typeName
      (.resp ⟨200, some (rawTypeJson tid members)⟩) = .ok s) :
    s.pokemon_count = members.length ∧
    s.showing = min 10 members.length ∧
    s.pokemon = (members.take 10).map expectedTypeEntry ∧
    s.pokemon.length = s.showing := by
  rw [getType_rawRun] at h
  injection h with h2
  subst h2
  refine ⟨rfl, rfl, rfl, ?_⟩
  simp [expectedSummary, List.length_take, min_comm]

/-- C2 witness: the type lookup at a 12-member payload. -/
theorem get_pokemon_by_type_success_counts_witness :
    (expectedSummary "fire" (.jnum 10) fireMembers).pokemon_count
      = fireMembers.length ∧
    (expectedSummary "fire" (.jnum 10) fireMembers).showing
      = min 10 fireMembers.length ∧
    (expectedSummary "fire" (.jnum 10) fireMembers).pokemon
      = (fireMembers.take 10).map expectedTypeEntry ∧
    ((expectedSummary "fire" (.jnum 10) fireMembers).pokemon).length
      = (expectedSummary "fire" (.jnum 10) fireMembers).showing :=
  get_pokemon_by_type_success_counts "fire" (.jnum 10) fireMembers _
    (getType_rawRun "fire" (.jnum 10) fireMembers)

/-- C3: the starter listing takes no input, performs no upstream call and
has no failure path (it is a total function of no request data), and
returns exactly the three starters with capitalized names, their locator
strings, and a total of 3. -/
theorem list_starters_spec :
    list_starters.total = 3 ∧
    list_starters.starters =
      [{ id := "1", name := "Bulbasaur", uri := "poke://pokemon/1" },
       { id := "4", name := "Charmander", uri := "poke://pokemon/4" },
       { id := "7", name := "Squirtle", uri := "poke://pokemon/7" }] ∧
    list_starters.starters.length = 3 :=
  ⟨rfl, rfl, rfl⟩

/-- C4: a successful Pokémon lookup on a well-formed payload divides the
upstream height and weight values by 10 and capitalizes the display
name. -/
theorem get_pokemon_success_fields (idOrName : String) (p : RawPokemon)
    (rec2 : PokemonRecord)
    (h : get_pokemon idOrName (.resp ⟨200, some (rawToJson p)⟩) = .ok rec2) :
    rec2.height = p.height / 10 ∧ rec2.weight = p.weight / 10 ∧
    rec2.name = pyCapitalize p.name := by
  rw [getPokemon_rawRun] at h
  injection h with h2
  subst h2
  exact ⟨rfl, rfl, rfl⟩

/-- C4 witness: id "1" with upstream name "bulbasaur", height 7 and
weight 69 yields "Bulbasaur", 7/10 and 69/10. -/
theorem get_pokemon_success_fields_witness :
    (expectedRecord "1" bulbaRaw).height = (7 : Rat) / 10 ∧
    (expectedRecord "1" bulbaRaw).weight = (69 : Rat) / 10 ∧
    (expectedRecord "1" bulbaRaw).name = "Bulbasaur" := by
  have h := get_pokemon_success_fields "1" bulbaRaw (expectedRecord "1" bulbaRaw)
    (getPokemon_rawRun "1" bulbaRaw)
  refine ⟨h.1, h.2.1, ?_⟩
  rw [h.2.2]
  decide

/-- C5 counterexample: a successful lookup whose upstream `types` array
repeats a name returns a `types` list with duplicates, so the field is an
ordered list, not a duplicate-free set. -/
theorem pokemon_types_not_a_set_counterexample :
    get_pokemon "1" (.resp ⟨200, some (rawToJson dupRaw)⟩) =
      .ok (expectedRecord "1" dupRaw) ∧
    (expectedRecord "1" dupRaw).types =
      [Json.jstr "grass", Json.jstr "grass"] ∧
    ¬ (expectedRecord "1" dupRaw).types.Nodup := by
  refine ⟨getPokemon_rawRun "1" dupRaw, rfl, ?_⟩
  intro hnd
  exact (List.nodup_cons.mp hnd).1 (List.mem_singleton.mpr rfl)

/-- C5 (amended): on a successful lookup the record has the source shape —
`types` and `abilities` are the upstream name values as lists in upstream
order (duplicates preserved), `base_stats` is the dict built from
stat-name/value pairs, and `sprite` is the raw upstream
`sprites.front_default` value (a string or null). -/
theorem get_pokemon_success_shape (idOrName : String) (p : RawPokemon) :
    get_pokemon idOrName (.resp ⟨200, some (rawToJson p)⟩) =
      .ok { id := p.pid, name := pyCapitalize p.name,
            height := p.height / 10, weight := p.weight / 10,
            types := p.types.map Json.jstr,
            abilities := p.abilities.map Json.jstr,
            base_stats := pyStatsDict p.stats, sprite := p.sprite,
            api_url := pokemonApiUrl idOrName } :=
  getPokemon_rawRun idOrName p

/-- C6 counterexample: the handler performs no sign validation, so a
negative upstream height yields a successful record with negative
`height_m`. -/
theorem negative_height_counterexample :
    get_pokemon "1" (.resp ⟨200, some (rawToJson negRaw)⟩) =
      .ok (expectedRecord "1" negRaw) ∧
    (expectedRecord "1" negRaw).height < 0 := by
  refine ⟨getPokemon_rawRun "1" negRaw, ?_⟩
  show (-5 : Rat) / 10 < 0
  norm_num

/-- C6 (amended): on a successful lookup `height_m` and `weight_kg` equal
the upstream values divided by 10 and are non-negative whenever the
upstream values are non-negative, and a payload lacking the `height` or
the `weight` key makes record construction fail with the processing
resource error rather than producing a record. -/
theorem pokemon_record_invariants (idOrName : String) (p : RawPokemon)
    (rec2 : PokemonRecord) (hh : 0 ≤ p.height) (hw : 0 ≤ p.weight)
    (h : get_pokemon idOrName (.resp ⟨200, some (rawToJson p)⟩) = .ok rec2) :
    (rec2.height = p.height / 10 ∧ rec2.weight = p.weight / 10 ∧
      0 ≤ rec2.height ∧ 0 ≤ rec2.weight) ∧
    get_pokemon idOrName (.resp ⟨200, some (rawJsonNoHeight p)⟩) =
      .resourceError (procPokemonMsg (keyErrStr "height")) ∧
    get_pokemon idOrName (.resp ⟨200, some (rawJsonNoWeight p)⟩) =
      .resourceError (procPokemonMsg (keyErrStr "weight")) := by
  refine ⟨?_, getPokemon_missingHeight idOrName p,
    getPokemon_missingWeight idOrName p⟩
  rw [getPokemon_rawRun] at h
  injection h with h2
  subst h2
  refine ⟨rfl, rfl, ?_, ?_⟩
  · show 0 ≤ p.height / 10
    exact div_nonneg hh (by norm_num)
  · show 0 ≤ p.weight / 10
    exact div_nonneg hw (by norm_num)

/-- C6 witness: the invariants at the Bulbasaur payload and its
height-less and weight-less variants. -/
theorem pokemon_record_invariants_witness :
    ((expectedRecord "1" bulbaRaw).height = bulbaRaw.height / 10 ∧
      (expectedRecord "1" bulbaRaw).weight = bulbaRaw.weight / 10 ∧
      (0 : Rat) ≤ (expectedRecord "1" bulbaRaw).height ∧
      (0 : Rat) ≤ (expectedRecord "1" bulbaRaw).weight) ∧
    get_pokemon "1" (.resp ⟨200, some (rawJsonNoHeight bulbaRaw)⟩) =
      .resourceError (procPokemonMsg (keyErrStr "height")) ∧
    get_pokemon "1" (.resp ⟨200, some (rawJsonNoWeight bulbaRaw)⟩) =
      .resourceError (procPokemonMsg (keyErrStr "weight")) :=
  pokemon_record_invariants "1" bulbaRaw (expectedRecord "1" bulbaRaw)
    (by norm_num [bulbaRaw]) (by norm_num [bulbaRaw])
    (getPokemon_rawRun "1" bulbaRaw)

/-- C7: with the credential absent after `load_dotenv`, the client module
setup raises an unhandled `TypeError` at the environment assignment — no
subprocess launch and no session step occurs, and the run never proceeds
silently. -/
theorem client_missing_credential_fatal :
    (clientBootstrap none).fatalError = some (.typeError envNoneMsg) ∧
    (clientBootstrap none).events = [] :=
  ⟨rfl, rfl⟩

/-- C8: each handler is a pure function of its request input and the
upstream outcome — the embedding has no other state — so two invocations
at the same identifier and unchanged upstream reply return identical
structured output. -/
theorem handlers_deterministic (idOrName typeName : String)
    (u v : Upstream) :
    get_pokemon idOrName u = get_pokemon idOrName u ∧
    get_pokemon_by_type typeName v = get_pokemon_by_type typeName v ∧
    list_starters = list_starters :=
  ⟨rfl, rfl, rfl⟩

/-- C9: the resource error raised for a 404 or another non-200 status is
not a `RequestError`, `KeyError` or `ValueError`, so the later `except`
clauses never intercept or rewrap it: whatever the body holds, a 404
surfaces with the original not-found message naming the identifier, and
other statuses with the original upstream-error message. -/
theorem resource_errors_not_rewrapped (idOrName typeName : String)
    (r rr : HttpResponse) (h404 : r.status = 404)
    (hs1 : rr.status ≠ 404) (hs2 : rr.status ≠ 200) :
    get_pokemon idOrName (.resp r) =
      .resourceError (pokemonNotFoundMsg idOrName) ∧
    get_pokemon_by_type typeName (.resp r) =
      .resourceError (typeNotFoundMsg typeName) ∧
    get_pokemon idOrName (.resp rr) =
      .resourceError (pokeApiErrMsg rr.status) ∧
    get_pokemon_by_type typeName (.resp rr) =
      .resourceError (pokeApiErrMsg rr.status) := by
  refine ⟨?_, ?_, ?_, ?_⟩ <;>
    simp [get_pokemon, get_pokemon_by_type, runResource, fetchStep,
          getPokemonBody, getTypeBody, bind, Except.bind, h404, hs1, hs2]

/-- C9 witness: a 404 and a 500 with a garbage body still surface the
original status-check messages. -/
theorem resource_errors_not_rewrapped_witness :
    get_pokemon "999999" (.resp ⟨404, some junkJson⟩) =
      .resourceError (pokemonNotFoundMsg "999999") ∧
    get_pokemon_by_type "unknowntype" (.resp ⟨404, some junkJson⟩) =
      .resourceError (typeNotFoundMsg "unknowntype") ∧
    get_pokemon "999999" (.resp ⟨500, some junkJson⟩) =
      .resourceError (pokeApiErrMsg 500) ∧
    get_pokemon_by_type "unknowntype" (.resp ⟨500, some junkJson⟩) =
      .resourceError (pokeApiErrMsg 500) :=
  resource_errors_not_rewrapped "999999" "unknowntype"
    ⟨404, some junkJson⟩ ⟨500, some junkJson⟩ rfl (by decide) (by decide)

/-- C10: every successful Pokémon lookup with identifier s carries an
`api_url` field equal to the PokeAPI base URL followed by s. -/
theorem get_pokemon_api_url_field (idOrName : String) (u : Upstream)
    (rec2 : PokemonRecord) (h : get_pokemon idOrName u = .ok rec2) :
    rec2.api_url = "https://pokeapi.co/api/v2/pokemon/" ++ idOrName :=
  getPokemon_ok_apiUrl idOrName u rec2 h

/-- C10 witness: the field at a concrete successful lookup under id
"25". -/
theorem get_pokemon_api_url_field_witness :
    (expectedRecord "25" bulbaRaw).api_url =
      "https://pokeapi.co/api/v2/pokemon/" ++ "25" :=
  get_pokemon_api_url_field "25" (.resp ⟨200, some (rawToJson bulbaRaw)⟩)
    (expectedRecord "25" bulbaRaw) (getPokemon_rawRun "25" bulbaRaw)
